import Mathlib

/-!
Shallow embedding of the consensus-mode selection layer of `canvas-node`
(`src/node/src/service.rs`): the `BuildOnAccess` lazy cell, the
`WaitForAuraConsensus` production selector, the `Verifier` verification
selector, and the wiring choices made by `new_partial` / `start_node_impl`.

Machine-level types that the selectors only pass through (block hashes,
validation data, candidates, import parameters) are abstracted to `Nat`;
the consensus engines themselves are external collaborators and are
modelled as opaque functions supplied to the selectors.  The client's
`runtime_api().has_api::<AuraApi>(&block_id)` query is modelled as a
function from a block hash to `Except String Bool`, so that a failing
probe is representable.  Asynchronous calls are sequentialized: the
`futures::lock::Mutex` around the lazy cell serializes every
get-or-build-then-delegate access, so a run of concurrent calls is some
sequence of atomic accesses to the shared cell, which is what the
sequential state-passing functions below compute.
-/

namespace CanvasNode

/-- Block hashes (`Hash` / `PHash` in the source), abstracted. -/
abbrev Hash := Nat

/-- Relay-chain parent hashes. -/
abbrev PHash := Nat

/-- `PersistedValidationData`, passed through verbatim by the selector. -/
abbrev ValidationData := Nat

/-- `ParachainCandidate<Block>`, produced by an engine, never inspected
by the selector. -/
abbrev Candidate := Nat

/-- `BlockOrigin`, passed through verbatim by the verifier selector. -/
abbrev BlockOrigin := Nat

/-- `sp_runtime::Justifications`, passed through verbatim. -/
abbrev Justifications := Nat

/-- A block body (`Vec<Extrinsic>`), passed through verbatim. -/
abbrev Body := List Nat

/-- The pair `(BlockImportParams, Option<Vec<(CacheKeyId, Vec<u8>)>>)`
returned by a successful verification, abstracted. -/
abbrev ImportOutcome := Nat

/-- A block header.  The production selector keys its probe on
`parent.hash()` and the verification selector on `*header.parent_hash()`,
so the model keeps exactly those two observations. -/
structure Header where
  hash : Hash
  parent_hash : Hash
deriving DecidableEq

/-- The client's runtime-API availability query
`client.runtime_api().has_api::<dyn AuraApi<Block, AuraId>>(&block_id)`:
a state read at a block reference that can either answer with a boolean
or err (state unavailable). -/
def Client : Type := Hash → Except String Bool

/-- The capability probe as both selectors compute it:
`has_api::<AuraApi>(&block_id).unwrap_or(false)` — a probe error is
mapped to `false`. -/
def hasAuraApi (client : Client) (h : Hash) : Bool :=
  match client h with
  | .ok b => b
  | .error _ => false

/-- `enum BuildOnAccess<R> { Uninitialized(Option<Box<dyn FnOnce() -> R>>),
Initialized(R) }`. -/
inductive BuildOnAccess (R : Type) : Type where
  | Uninitialized : Option (Unit → R) → BuildOnAccess R
  | Initialized : R → BuildOnAccess R

/-- One iteration of the loop body of `BuildOnAccess::get_mut`. -/
inductive GetMutOutcome (R : Type) : Type where
  | ok : R → BuildOnAccess R → GetMutOutcome R
  | panicked : GetMutOutcome R
  | outOfFuel : GetMutOutcome R

/-- The `loop` of `BuildOnAccess::get_mut`, fuelled: on
`Uninitialized(Some f)` the cell is rewritten to `Initialized(f())` and
the loop runs again; on `Uninitialized(None)` the `unwrap` of the taken
factory panics; on `Initialized(r)` the loop returns `r`.  The returned
cell is the state of `self` at the `return`. -/
def BuildOnAccess.getMutFuel {R : Type} : Nat → BuildOnAccess R → GetMutOutcome R
  | 0, _ => .outOfFuel
  | Nat.succ n, .Uninitialized (some f) =>
      BuildOnAccess.getMutFuel n (.Initialized (f ()))
  | Nat.succ _, .Uninitialized none => .panicked
  | Nat.succ _, .Initialized r => .ok r (.Initialized r)

/-- Big-step semantics of `BuildOnAccess::get_mut`: the value returned
and the cell afterwards, `none` when the `unwrap` would panic. -/
def BuildOnAccess.getMut {R : Type} : BuildOnAccess R → Option (R × BuildOnAccess R)
  | .Uninitialized (some f) => some (f (), .Initialized (f ()))
  | .Uninitialized none => none
  | .Initialized r => some (r, .Initialized r)

/-- `get_mut`, instrumented with a counter of factory invocations. -/
def BuildOnAccess.getMutCount {R : Type} :
    BuildOnAccess R × Nat → Option (R × (BuildOnAccess R × Nat))
  | (.Uninitialized (some f), n) => some (f (), (.Initialized (f ()), n + 1))
  | (.Uninitialized none, _) => none
  | (.Initialized r, n) => some (r, (.Initialized r, n))

/-- A sequence of `get_mut` accesses to one shared cell (what N callers
serialized through the `Mutex` perform), collecting the value each
caller observes. -/
def iterateGetMut {R : Type} :
    Nat → BuildOnAccess R × Nat → Option (List R × (BuildOnAccess R × Nat))
  | 0, sn => some ([], sn)
  | Nat.succ k, sn =>
      match BuildOnAccess.getMutCount sn with
      | some (r, sn') =>
          match iterateGetMut k sn' with
          | some (rs, sn'') => some (r :: rs, sn'')
          | none => none
      | none => none

/-- A cell is well formed unless it is `Uninitialized(None)` (the only
state in which `get_mut` panics). -/
def BuildOnAccess.wellFormed {R : Type} : BuildOnAccess R → Prop
  | .Uninitialized none => False
  | _ => True

/-- The value a well-formed cell yields on access: the cached value, or
the factory's result for a pending factory. -/
def BuildOnAccess.builtValue {R : Type} : BuildOnAccess R → Option R
  | .Uninitialized (some f) => some (f ())
  | .Uninitialized none => none
  | .Initialized r => some r

/-- A consensus engine's `produce_candidate`
(`ParachainConsensus<Block>`), as the selector observes it: the returned
candidate option, passed back verbatim. -/
def Engine : Type := Header → PHash → ValidationData → Option Candidate

/-- `struct WaitForAuraConsensus<Client>`: the client used for the
capability probe, the lazily built Aura engine behind the mutex, and the
eagerly built relay-chain engine. -/
structure WaitForAuraConsensus where
  client : Client
  aura_consensus : BuildOnAccess Engine
  relay_chain_consensus : Engine

/-- `WaitForAuraConsensus::produce_candidate`: probe
`has_api::<AuraApi>` at `parent.hash()` with `unwrap_or(false)`; if true,
lock the mutex, `get_mut` the lazy cell and delegate to the Aura engine;
otherwise delegate to the relay-chain engine.  The outer `Option` is
`none` exactly when `get_mut` panics; otherwise the delegated engine's
result is returned verbatim together with the selector state after the
call. -/
def WaitForAuraConsensus.produce_candidate (s : WaitForAuraConsensus)
    (parent : Header) (relay_parent : PHash) (validation_data : ValidationData) :
    Option (Option Candidate × WaitForAuraConsensus) :=
  if hasAuraApi s.client parent.hash then
    match s.aura_consensus.getMut with
    | some (eng, cell) =>
        some (eng parent relay_parent validation_data,
          { s with aura_consensus := cell })
    | none => none
  else
    some (s.relay_chain_consensus parent relay_parent validation_data, s)

/-- Which engine a `produce_candidate` call dispatches to. -/
inductive EngineChoice : Type where
  | aura : EngineChoice
  | relayChain : EngineChoice
deriving DecidableEq

/-- The engine choice made by `WaitForAuraConsensus::produce_candidate`
for a given parent: exactly the `if` condition of the source. -/
def WaitForAuraConsensus.engineChoice (s : WaitForAuraConsensus)
    (parent : Header) : EngineChoice :=
  if hasAuraApi s.client parent.hash then .aura else .relayChain

/-- An engine's `verify` (`Verifier<Block>` trait), as the selector
observes it: a result returned verbatim, `Err` carrying a string
reason. -/
def VerifierFn : Type :=
  BlockOrigin → Header → Option Justifications → Option Body →
    Except String ImportOutcome

/-- `struct Verifier<Client>`: the client used for the probe, the lazily
built Aura verifier and the eagerly built relay-chain verifier. -/
structure Verifier where
  client : Client
  aura_verifier : BuildOnAccess VerifierFn
  relay_chain_verifier : VerifierFn

/-- `Verifier::verify`: probe `has_api::<AuraApi>` at
`*header.parent_hash()` with `unwrap_or(false)`; if true, `get_mut` the
lazy Aura verifier and delegate; otherwise delegate to the relay-chain
verifier.  The outer `Option` is `none` exactly when `get_mut` panics;
the delegated verifier's `Result` is returned verbatim. -/
def Verifier.verify (s : Verifier) (origin : BlockOrigin) (header : Header)
    (justifications : Option Justifications) (body : Option Body) :
    Option (Except String ImportOutcome × Verifier) :=
  if hasAuraApi s.client header.parent_hash then
    match s.aura_verifier.getMut with
    | some (v, cell) =>
        some (v origin header justifications body,
          { s with aura_verifier := cell })
    | none => none
  else
    some (s.relay_chain_verifier origin header justifications body, s)

/-- The engine choice made by `Verifier::verify` for a given header:
exactly the `if` condition of the source, keyed on the header's parent
hash. -/
def Verifier.engineChoice (s : Verifier) (header : Header) : EngineChoice :=
  if hasAuraApi s.client header.parent_hash then .aura else .relayChain

/-- A sequence of `produce_candidate` calls on one selector, threading
the selector state; `none` as soon as one call panics. -/
def runCalls (s : WaitForAuraConsensus) :
    List (Header × PHash × ValidationData) →
      Option (List (Option Candidate) × WaitForAuraConsensus)
  | [] => some ([], s)
  | c :: cs =>
      match s.produce_candidate c.1 c.2.1 c.2.2 with
      | some (r, s') =>
          match runCalls s' cs with
          | some (rs, s'') => some (r :: rs, s'')
          | none => none
      | none => none

/-- The import-queue constructions present in `new_partial`
(`src/node/src/service.rs`): the cumulus Aura import queue (live code,
lines 315–334), the `BasicQueue` over the `Verifier` selector (present
only as commented-out code, lines 238–290), and the cumulus relay-chain
queue for imports (commented out, lines 229–236). -/
inductive ImportQueueChoice : Type where
  | cumulusAuraQueue : ImportQueueChoice
  | verifierSelectorQueue : ImportQueueChoice
  | relayChainQueue : ImportQueueChoice
deriving DecidableEq

/-- The import queue `new_partial` actually builds and returns in its
`PartialComponents` (lines 315–348): the cumulus Aura import queue; the
`Verifier`-selector queue is commented out. -/
def newPartialImportQueue : ImportQueueChoice := .cumulusAuraQueue

/-- The authoring constructions present in `start_node_impl`: the
`WaitForAuraConsensus` selector (present only as commented-out code,
lines 448–566) and the direct `build_aura_consensus` (live code, lines
568–621). -/
inductive AuthoringChoice : Type where
  | auraDirect : AuthoringChoice
  | waitForAuraSelector : AuthoringChoice
deriving DecidableEq

/-- `let wait_for_aura = false;` — line 443 of the source. -/
def waitForAuraFlag : Bool := false

/-- The `parachain_consensus` that `start_node_impl` passes to
`start_collator` (lines 582–640): the directly built Aura consensus; the
selector branch is commented out. -/
def startNodeAuthoring : AuthoringChoice := .auraDirect

/-! ### Shared lemmas about the lazy cell -/

theorem getMut_some_initialized {R : Type} {s : BuildOnAccess R} {r : R}
    {c : BuildOnAccess R} (h : s.getMut = some (r, c)) :
    c = .Initialized r := by
  cases s with
  | Uninitialized f =>
      cases f with
      | some g =>
          simp only [BuildOnAccess.getMut, Option.some.injEq, Prod.mk.injEq] at h
          obtain ⟨h1, h2⟩ := h
          subst h1
          exact h2.symm
      | none => simp [BuildOnAccess.getMut] at h
  | Initialized v =>
      simp only [BuildOnAccess.getMut, Option.some.injEq, Prod.mk.injEq] at h
      obtain ⟨h1, h2⟩ := h
      subst h1
      exact h2.symm

theorem iterateGetMut_initialized {R : Type} (k : Nat) (r : R) (n : Nat) :
    iterateGetMut k (.Initialized r, n) =
      some (List.replicate k r, (.Initialized r, n)) := by
  induction k with
  | zero => rfl
  | succ k ih => simp [iterateGetMut, BuildOnAccess.getMutCount, ih, List.replicate]

theorem runCalls_all_relay (s : WaitForAuraConsensus)
    (calls : List (Header × PHash × ValidationData))
    (h : ∀ c ∈ calls, hasAuraApi s.client c.1.hash = false) :
    runCalls s calls =
      some (calls.map (fun c => s.relay_chain_consensus c.1 c.2.1 c.2.2), s) := by
  induction calls with
  | nil => rfl
  | cons c cs ih =>
      have hc : hasAuraApi s.client c.1.hash = false := h c (List.mem_cons_self c cs)
      have ihs := ih (fun d hd => h d (List.mem_cons_of_mem c hd))
      simp [runCalls, WaitForAuraConsensus.produce_candidate, hc, ihs]

/-! ### Concrete fixtures used by witnesses and counterexamples -/

/-- A client whose probe always answers `Ok(true)`. -/
def clientTrue : Client := fun _ => .ok true

/-- A client whose probe always answers `Ok(false)`. -/
def clientFalse : Client := fun _ => .ok false

/-- A client whose probe always errs (state unavailable). -/
def clientErr : Client := fun _ => .error "state unavailable"

/-- A client whose probe answers `Ok(true)` exactly at block hash `0`. -/
def clientStep : Client := fun h => .ok (h == 0)

/-- A concrete Aura production engine, recognisable by its candidate. -/
def auraEngine : Engine := fun _ _ _ => some 1

/-- A concrete relay-chain production engine, recognisable by its
candidate. -/
def relayEngine : Engine := fun _ _ _ => some 2

/-- A concrete Aura verifier that accepts. -/
def auraVerifierFn : VerifierFn := fun _ _ _ _ => .ok 1

/-- A concrete relay-chain verifier that accepts. -/
def relayVerifierFnOk : VerifierFn := fun _ _ _ _ => .ok 7

/-- A concrete relay-chain verifier that rejects with a reason. -/
def relayVerifierFnErr : VerifierFn := fun _ _ _ _ => .error "relay rejected"

/-- A header with hash `0`. -/
def hdrA : Header := ⟨0, 100⟩

/-- A header with hash `1` whose parent hash is `hdrA.hash`. -/
def hdrB : Header := ⟨1, 0⟩

/-- A production selector over `clientTrue` with a pending Aura factory. -/
def selectorOne : WaitForAuraConsensus :=
  ⟨clientTrue, .Uninitialized (some fun _ => auraEngine), relayEngine⟩

/-- A verification selector over `clientTrue` with a pending Aura
factory. -/
def verifierOne : Verifier :=
  ⟨clientTrue, .Uninitialized (some fun _ => auraVerifierFn), relayVerifierFnOk⟩

/-- A production selector over `clientStep` with a pending Aura factory. -/
def selectorStep : WaitForAuraConsensus :=
  ⟨clientStep, .Uninitialized (some fun _ => auraEngine), relayEngine⟩

/-- `selectorStep` after its Aura engine has been built. -/
def selectorStepBuilt : WaitForAuraConsensus :=
  ⟨clientStep, .Initialized auraEngine, relayEngine⟩

/-- A production selector over `clientErr` with a pending Aura factory. -/
def selectorErr : WaitForAuraConsensus :=
  ⟨clientErr, .Uninitialized (some fun _ => auraEngine), relayEngine⟩

/-- A verification selector over `clientErr`. -/
def verifierErr : Verifier :=
  ⟨clientErr, .Uninitialized (some fun _ => auraVerifierFn), relayVerifierFnOk⟩

/-- A verification selector over `clientFalse` whose relay-chain verifier
rejects. -/
def verifierRelayRejects : Verifier :=
  ⟨clientFalse, .Uninitialized (some fun _ => auraVerifierFn), relayVerifierFnErr⟩

/-- A production selector over `clientFalse` with a pending Aura factory. -/
def selectorNever : WaitForAuraConsensus :=
  ⟨clientFalse, .Uninitialized (some fun _ => auraEngine), relayEngine⟩

/-! ### Claims -/

/-- C1: for every parent block reference, the production selector
(`WaitForAuraConsensus::produce_candidate`, keyed on `parent.hash()`) and
the verification selector (`Verifier::verify`, keyed on the parent hash
of the header being verified) resolve to the same engine choice when
they query the same client at the same reference, because both compute
`has_api::<AuraApi>(..).unwrap_or(false)`; and a relay-chain choice
means each operation delegates to its relay-chain engine. -/
theorem C1_mode_agreement (p : WaitForAuraConsensus) (v : Verifier)
    (parent header : Header)
    (hclient : v.client = p.client)
    (href : header.parent_hash = parent.hash) :
    p.engineChoice parent = v.engineChoice header ∧
    (p.engineChoice parent = .relayChain →
      ∀ rp vd, p.produce_candidate parent rp vd =
        some (p.relay_chain_consensus parent rp vd, p)) ∧
    (v.engineChoice header = .relayChain →
      ∀ o j b, v.verify o header j b =
        some (v.relay_chain_verifier o header j b, v)) := by
  unfold WaitForAuraConsensus.engineChoice Verifier.engineChoice
    WaitForAuraConsensus.produce_candidate Verifier.verify
  rw [hclient, href]
  by_cases h : hasAuraApi p.client parent.hash
  · simp [h]
  · simp [h]

/-- Witness for C1 at `selectorOne` / `verifierOne` (both over
`clientTrue`) with `hdrB.parent_hash = hdrA.hash`. -/
theorem C1_mode_agreement_witness :
    verifierOne.client = selectorOne.client ∧
    hdrB.parent_hash = hdrA.hash ∧
    (selectorOne.engineChoice hdrA = verifierOne.engineChoice hdrB ∧
    (selectorOne.engineChoice hdrA = .relayChain →
      ∀ rp vd, selectorOne.produce_candidate hdrA rp vd =
        some (selectorOne.relay_chain_consensus hdrA rp vd, selectorOne)) ∧
    (verifierOne.engineChoice hdrB = .relayChain →
      ∀ o j b, verifierOne.verify o hdrB j b =
        some (verifierOne.relay_chain_verifier o hdrB j b, verifierOne))) :=
  ⟨rfl, rfl, C1_mode_agreement selectorOne verifierOne hdrA hdrB rfl rfl⟩

/-- C2: `produce_candidate` dispatches on the probe at the parent: if the
probe answers true, it acquires the Aura engine through the lazy cell
(the cell afterwards holds exactly the built engine) and returns that
engine's result verbatim; otherwise it delegates to the always-available
relay-chain engine and returns its result verbatim, the selector state
unchanged. -/
theorem C2_produce_dispatch (s : WaitForAuraConsensus) (parent : Header)
    (rp : PHash) (vd : ValidationData) (eng : Engine)
    (cell : BuildOnAccess Engine)
    (hcell : s.aura_consensus.getMut = some (eng, cell)) :
    (hasAuraApi s.client parent.hash = true →
      s.produce_candidate parent rp vd =
        some (eng parent rp vd, { s with aura_consensus := cell }) ∧
      cell = .Initialized eng) ∧
    (hasAuraApi s.client parent.hash = false →
      s.produce_candidate parent rp vd =
        some (s.relay_chain_consensus parent rp vd, s)) := by
  constructor
  · intro h
    refine ⟨?_, getMut_some_initialized hcell⟩
    simp [WaitForAuraConsensus.produce_candidate, h, hcell]
  · intro h
    simp [WaitForAuraConsensus.produce_candidate, h]

/-- Witness for C2 at `selectorOne` (probe true, pending factory): the
call builds the Aura engine and returns its candidate. -/
theorem C2_produce_dispatch_witness :
    selectorOne.aura_consensus.getMut =
      some (auraEngine, .Initialized auraEngine) ∧
    ((hasAuraApi selectorOne.client hdrA.hash = true →
      selectorOne.produce_candidate hdrA 0 0 =
        some (auraEngine hdrA 0 0,
          { selectorOne with aura_consensus := .Initialized auraEngine }) ∧
      (BuildOnAccess.Initialized auraEngine : BuildOnAccess Engine) =
        .Initialized auraEngine) ∧
    (hasAuraApi selectorOne.client hdrA.hash = false →
      selectorOne.produce_candidate hdrA 0 0 =
        some (selectorOne.relay_chain_consensus hdrA 0 0, selectorOne))) :=
  ⟨rfl, C2_produce_dispatch selectorOne hdrA 0 0 auraEngine
    (.Initialized auraEngine) rfl⟩

/-- C3: on a cell constructed `Uninitialized` with a factory, the first
`get_mut` invokes the factory exactly once (the invocation counter steps
from `n` to `n + 1`), stores the built value and returns it; every one
of `k` subsequent calls returns that same stored value and never invokes
the factory again (the counter stays at `n + 1`). -/
theorem C3_lazy_cell_once {R : Type} (f : Unit → R) (n k : Nat) :
    BuildOnAccess.getMutCount (.Uninitialized (some f), n) =
      some (f (), (.Initialized (f ()), n + 1)) ∧
    iterateGetMut k (.Initialized (f ()), n + 1) =
      some (List.replicate k (f ()), (.Initialized (f ()), n + 1)) :=
  ⟨rfl, iterateGetMut_initialized k (f ()) (n + 1)⟩

/-- C4: when the runtime-API probe itself errs, both
`produce_candidate` and `verify` treat the result as "Aura not
available" (`unwrap_or(false)`) and delegate to the relay-chain engine;
the probe error is never propagated: the calls return the relay-chain
results, not a failure of the selector. -/
theorem C4_probe_error_fallback (s : WaitForAuraConsensus) (v : Verifier)
    (parent header : Header) (e e' : String)
    (rp : PHash) (vd : ValidationData) (o : BlockOrigin)
    (j : Option Justifications) (b : Option Body)
    (hp : s.client parent.hash = .error e)
    (hv : v.client header.parent_hash = .error e') :
    s.produce_candidate parent rp vd =
      some (s.relay_chain_consensus parent rp vd, s) ∧
    v.verify o header j b =
      some (v.relay_chain_verifier o header j b, v) := by
  have hps : hasAuraApi s.client parent.hash = false := by
    unfold hasAuraApi
    rw [hp]
  have hvs : hasAuraApi v.client header.parent_hash = false := by
    unfold hasAuraApi
    rw [hv]
  constructor
  · simp [WaitForAuraConsensus.produce_candidate, hps]
  · simp [Verifier.verify, hvs]

/-- Witness for C4 at `selectorErr` / `verifierErr` (probe always errs):
both operations fall back to their relay-chain engines. -/
theorem C4_probe_error_fallback_witness :
    selectorErr.client hdrA.hash = .error "state unavailable" ∧
    verifierErr.client hdrB.parent_hash = .error "state unavailable" ∧
    (selectorErr.produce_candidate hdrA 0 0 =
      some (selectorErr.relay_chain_consensus hdrA 0 0, selectorErr) ∧
    verifierErr.verify 0 hdrB none none =
      some (verifierErr.relay_chain_verifier 0 hdrB none none, verifierErr)) :=
  ⟨rfl, rfl, C4_probe_error_fallback selectorErr verifierErr hdrA hdrB
    "state unavailable" "state unavailable" 0 0 0 none none rfl rfl⟩

/-- C5 counterexample: on `selectorStep` (probe true exactly at hash 0),
the first call observes capability true at `hdrA` and produces through
the Aura engine (candidate 1), yet the very next call on the same
selector instance, at `hdrB` where the probe reports false, produces
through the relay-chain engine (candidate 2), not the Aura engine — the
mode is re-probed every call, not sticky. -/
theorem C5_counterexample :
    (runCalls selectorStep [(hdrA, 0, 0), (hdrB, 0, 0)]).map Prod.fst =
      some [some 1, some 2] ∧
    hasAuraApi selectorStep.client hdrA.hash = true ∧
    auraEngine hdrB 0 0 = some 1 ∧
    relayEngine hdrB 0 0 = some 2 ∧
    (some 2 : Option Candidate) ≠ some 1 :=
  ⟨rfl, rfl, rfl, rfl, by decide⟩

/-- C5 amended: only the engine construction is latched — once the lazy
cell is `Initialized` it stays `Initialized` with the same engine across
every further `produce_candidate` call — but the dispatch itself
re-probes capability on every call, and a call whose probe reports false
delegates to the relay-chain engine even on an instance whose Aura
engine is already built. -/
theorem C5_amended_latch_is_construction_only (s : WaitForAuraConsensus)
    (e : Engine) (parent : Header) (rp : PHash) (vd : ValidationData)
    (hcell : s.aura_consensus = .Initialized e) :
    (∀ r s', s.produce_candidate parent rp vd = some (r, s') →
      s'.aura_consensus = .Initialized e) ∧
    (hasAuraApi s.client parent.hash = false →
      s.produce_candidate parent rp vd =
        some (s.relay_chain_consensus parent rp vd, s)) := by
  constructor
  · intro r s' hps
    by_cases h : hasAuraApi s.client parent.hash
    · simp [WaitForAuraConsensus.produce_candidate, h, hcell,
        BuildOnAccess.getMut] at hps
      obtain ⟨h1, h2⟩ := hps
      subst h2
      rfl
    · simp [WaitForAuraConsensus.produce_candidate, h] at hps
      obtain ⟨h1, h2⟩ := hps
      subst h2
      exact hcell
  · intro h
    simp [WaitForAuraConsensus.produce_candidate, h]

/-- Witness for the amended C5 at `selectorStepBuilt` (Aura engine
already built) and parent `hdrB`, where the probe reports false. -/
theorem C5_amended_witness :
    selectorStepBuilt.aura_consensus = .Initialized auraEngine ∧
    ((∀ r s', selectorStepBuilt.produce_candidate hdrB 0 0 = some (r, s') →
      s'.aura_consensus = .Initialized auraEngine) ∧
    (hasAuraApi selectorStepBuilt.client hdrB.hash = false →
      selectorStepBuilt.produce_candidate hdrB 0 0 =
        some (selectorStepBuilt.relay_chain_consensus hdrB 0 0,
          selectorStepBuilt))) :=
  ⟨rfl, C5_amended_latch_is_construction_only selectorStepBuilt auraEngine
    hdrB 0 0 rfl⟩

/-- C6 counterexample: on `verifierErr` the capability probe itself errs
at the parent of `hdrB`, yet `verify` succeeds with the relay-chain
verifier's `Ok` — a probe failure does not surface to the caller as an
`Err`; it is mapped to "Aura not available" instead. -/
theorem C6_counterexample :
    verifierErr.client hdrB.parent_hash = .error "state unavailable" ∧
    (verifierErr.verify 0 hdrB none none).map Prod.fst =
      some (.ok 7) :=
  ⟨rfl, rfl⟩

/-- C6 amended: a probe failure is mapped to "Aura not available" and
the call delegates to the relay-chain verifier; in every case `verify`
returns the delegated verifier's `Result` verbatim — in particular a
delegated `Err` (string reason) surfaces to the caller unchanged and is
never swallowed into a success, and the call returns (no panic) whenever
the lazy cell is well formed. -/
theorem C6_amended_delegated_result_verbatim (v : Verifier)
    (av : VerifierFn) (o : BlockOrigin) (hdr : Header)
    (j : Option Justifications) (b : Option Body)
    (hav : v.aura_verifier.builtValue = some av) :
    v.verify o hdr j b =
      some (if hasAuraApi v.client hdr.parent_hash then
              (av o hdr j b, { v with aura_verifier := .Initialized av })
            else (v.relay_chain_verifier o hdr j b, v)) := by
  by_cases h : hasAuraApi v.client hdr.parent_hash
  · cases hg : v.aura_verifier with
    | Uninitialized f =>
        cases f with
        | some g =>
            have hgav : g () = av := by
              rw [hg] at hav
              simpa [BuildOnAccess.builtValue] using hav
            simp [Verifier.verify, h, hg, BuildOnAccess.getMut, hgav]
        | none =>
            rw [hg] at hav
            simp [BuildOnAccess.builtValue] at hav
    | Initialized r =>
        have hrav : r = av := by
          rw [hg] at hav
          simpa [BuildOnAccess.builtValue] using hav
        simp [Verifier.verify, h, hg, BuildOnAccess.getMut, hrav]
  · simp [Verifier.verify, h]

/-- Witness for the amended C6 at `verifierRelayRejects` (probe false,
relay-chain verifier rejects): the delegated `Err "relay rejected"`
surfaces verbatim. -/
theorem C6_amended_witness :
    verifierRelayRejects.aura_verifier.builtValue = some auraVerifierFn ∧
    verifierRelayRejects.verify 0 hdrB none none =
      some (if hasAuraApi verifierRelayRejects.client hdrB.parent_hash then
              (auraVerifierFn 0 hdrB none none,
                { verifierRelayRejects with
                    aura_verifier := .Initialized auraVerifierFn })
            else (verifierRelayRejects.relay_chain_verifier 0 hdrB none none,
              verifierRelayRejects)) :=
  ⟨rfl, C6_amended_delegated_result_verbatim verifierRelayRejects
    auraVerifierFn 0 hdrB none none rfl⟩

/-- C7 counterexample: the node as built does not route authoring or
importing through the selectors — `new_partial` does not build the
`Verifier`-selector import queue and `start_node_impl` does not build
the `WaitForAuraConsensus` authoring selector (both constructions exist
only as commented-out code). -/
theorem C7_counterexample :
    ¬(newPartialImportQueue = .verifierSelectorQueue ∧
      startNodeAuthoring = .waitForAuraSelector) := by
  decide

/-- C7 amended: `new_partial` builds the cumulus Aura import queue
directly and `start_node_impl` (with `wait_for_aura = false` and the
selector branch commented out) builds the Aura consensus directly and
passes it to `start_collator`; the selector types are defined in the
file but are not wired into the running node, so the built node runs
Aura-only rather than switching modes at runtime. -/
theorem C7_amended_direct_wiring :
    newPartialImportQueue = .cumulusAuraQueue ∧
    startNodeAuthoring = .auraDirect ∧
    waitForAuraFlag = false :=
  ⟨rfl, rfl, rfl⟩

/-- C8: as long as every capability probe performed by a sequence of
`produce_candidate` calls reports false, every call delegates to the
relay-chain engine, the selector state is untouched, and the lazy cell
still holds the original pending factory — the Aura factory has not been
invoked. -/
theorem C8_aura_engine_lazy (s : WaitForAuraConsensus) (f : Unit → Engine)
    (calls : List (Header × PHash × ValidationData))
    (hcell : s.aura_consensus = .Uninitialized (some f))
    (hprobe : ∀ c ∈ calls, hasAuraApi s.client c.1.hash = false) :
    runCalls s calls =
      some (calls.map (fun c => s.relay_chain_consensus c.1 c.2.1 c.2.2), s) ∧
    (runCalls s calls).map (fun pr => pr.2.aura_consensus) =
      some (.Uninitialized (some f)) := by
  have h1 := runCalls_all_relay s calls hprobe
  refine ⟨h1, ?_⟩
  rw [h1]
  simp [hcell]

/-- Witness for C8 at `selectorNever` (probe always false) on two calls:
both delegate to the relay-chain engine and the cell still holds the
pending Aura factory. -/
theorem C8_aura_engine_lazy_witness :
    selectorNever.aura_consensus =
      .Uninitialized (some fun _ => auraEngine) ∧
    (∀ c ∈ [(hdrA, (5 : PHash), (6 : ValidationData)), (hdrB, 7, 8)],
      hasAuraApi selectorNever.client c.1.hash = false) ∧
    (runCalls selectorNever [(hdrA, 5, 6), (hdrB, 7, 8)] =
      some ([(hdrA, (5 : PHash), (6 : ValidationData)), (hdrB, 7, 8)].map
        (fun c => selectorNever.relay_chain_consensus c.1 c.2.1 c.2.2),
        selectorNever) ∧
    (runCalls selectorNever [(hdrA, 5, 6), (hdrB, 7, 8)]).map
        (fun pr => pr.2.aura_consensus) =
      some (.Uninitialized (some fun _ => auraEngine))) :=
  ⟨rfl, by decide,
    C8_aura_engine_lazy selectorNever (fun _ => auraEngine)
      [(hdrA, 5, 6), (hdrB, 7, 8)] rfl (by decide)⟩

/-- C9: a run of `n + 1` first-touch accesses to one shared lazy cell —
which is what `n + 1` concurrent `produce_candidate` callers perform,
since the `futures::lock::Mutex` serializes every
get-or-build-then-delegate access into some sequence of atomic cell
operations — invokes the factory exactly once (the invocation counter
ends at 1) and every caller observes the same built engine `f ()`. -/
theorem C9_single_construction {R : Type} (f : Unit → R) (n : Nat) :
    iterateGetMut (n + 1) (.Uninitialized (some f), 0) =
      some (List.replicate (n + 1) (f ()), (.Initialized (f ()), 1)) := by
  simp [iterateGetMut, BuildOnAccess.getMutCount,
    iterateGetMut_initialized, List.replicate_succ]

/-- C10: on any well-formed cell (`Initialized`, or `Uninitialized`
holding a factory), `get_mut` terminates within two loop iterations with
no panic: the fuelled loop returns in two steps, agreeing with the
big-step semantics, and the cell afterwards is `Initialized` — so the
state `Uninitialized(None)`, the only one on which the `unwrap` panics,
is never produced for a later call to observe. -/
theorem C10_getMut_total_no_panic {R : Type} (s : BuildOnAccess R)
    (h : s.wellFormed) :
    ∃ r, BuildOnAccess.getMutFuel 2 s = .ok r (.Initialized r) ∧
      s.getMut = some (r, .Initialized r) ∧
      BuildOnAccess.wellFormed (.Initialized r) := by
  cases s with
  | Uninitialized f =>
      cases f with
      | some g => exact ⟨g (), rfl, rfl, trivial⟩
      | none => exact False.elim h
  | Initialized r => exact ⟨r, rfl, rfl, trivial⟩

/-- A concrete well-formed cell used by the C10 witness. -/
def natCell : BuildOnAccess Nat := .Uninitialized (some fun _ => 5)

/-- Witness for C10 at `natCell`. -/
theorem C10_getMut_total_no_panic_witness :
    natCell.wellFormed ∧
    ∃ r, BuildOnAccess.getMutFuel 2 natCell = .ok r (.Initialized r) ∧
      natCell.getMut = some (r, .Initialized r) ∧
      BuildOnAccess.wellFormed (.Initialized r) :=
  ⟨trivial, C10_getMut_total_no_panic natCell trivial⟩

end CanvasNode
